import Mathlib

/-!
Shallow embedding of the LDAP identity-federation adapter
(`data/users/externalldap.py`): filter composition and escaping,
referral parsing, the referral-aware user search across candidate
base DNs, identity-record resolution, role predicates, existence
checks, and the paginated group-member enumerator.

The directory-protocol client is out of scope of the module itself;
its observable behaviour (the outcome of each `search_s` /
`search_ext` / `result3` / bind call) is a parameter of the embedded
functions, so a theorem quantifying over those parameters covers all
possible server behaviours.
-/

namespace ExternalLdap

/-! ### Data model -/

/-- An LDAP attribute map: attribute name to list of values.
Values are modelled as already-decoded text (the source decodes the
first byte value as UTF-8, falling back to the raw value). -/
abbrev AttrMap := List (String × List String)

/-- Model of `response.get(attr)`: the value list for a key, if present. -/
def getAttr (m : AttrMap) (k : String) : Option (List String) :=
  match m.find? (fun p => p.1 == k) with
  | some p => some p.2
  | none => none

/-- Python truthiness of `response.get(attr)`: the key is present and
its value list is non-empty. -/
def attrPresent (m : AttrMap) (k : String) : Bool :=
  match getAttr m k with
  | some (_ :: _) => true
  | _ => false

/-- Python truthiness of an optional configuration string: set and
non-empty. -/
def optStrTruthy : Option String → Bool
  | none => false
  | some s => !(s == "")

/-- Model of `UserInformation` namedtuple from `data.users.federated`. -/
structure UserInformation where
  username : String
  email : Option String
  id : String
deriving Repr, DecidableEq

/-- Endpoint configuration: the fields of `LDAPUsers` the embedded
operations read. `user_dns` is the ordered list of full candidate
base DNs built in `__init__`. -/
structure LDAPConfig where
  uid_attr : String
  email_attr : String
  requires_email : Bool
  user_dns : List String
  ldap_user_filter : Option String
  ldap_superuser_filter : Option String
  ldap_global_readonly_superuser_filter : Option String
  ldap_restricted_user_filter : Option String
  force_no_pagination : Bool
deriving Repr

/-! ### Filter composer -/

/-- Model of `ldap.filter.escape_filter_chars` (default escape mode): the
RFC 4515 escaping of `\`, `*`, `(`, `)` and NUL performed on every
assertion value before interpolation.  The sequence of
`str.replace` calls is equivalent to this character-wise map because
no replacement string contains a character that a later replacement
rewrites. -/
def escapeChar (c : Char) : String :=
  if c = '\\' then "\\5c"
  else if c = '*' then "\\2a"
  else if c = '(' then "\\28"
  else if c = ')' then "\\29"
  else if c = Char.ofNat 0 then "\\00"
  else String.singleton c

/-- Model of `escape_filter_chars` applied to a whole assertion value. -/
def escape_filter_chars (s : String) : String :=
  String.join (s.data.map escapeChar)

/-- Model of the parenthesis wrapping in `_add_filter`: wrap unless the fragment
already both starts with `(` and ends with `)`. -/
def wrapParens (s : String) : String :=
  if s.startsWith "(" && s.endsWith ")" then s else "(" ++ s ++ ")"

/-- Model of `_add_filter`: conjoin a query with a role/user filter. -/
def add_filter (query user_filter : String) : String :=
  "(&" ++ wrapParens query ++ wrapParens user_filter ++ ")"

/-- Model of `_add_user_filter`: conjoin the configured user filter, if any
(a falsy — unset or empty — filter leaves the query unchanged). -/
def add_user_filter (cfg : LDAPConfig) (query : String) : String :=
  if optStrTruthy cfg.ldap_user_filter then
    add_filter query (cfg.ldap_user_filter.getD "")
  else query

/-- The main user-lookup filter built by `_ldap_user_search_with_rdn`
(line 231): `(|({uid}={term}{suffix})({email}={term}{suffix}))` with
the term passed through `escape_filter_chars`, then conjoined with
the configured user filter. -/
def user_search_query (cfg : LDAPConfig) (username_or_email suffix : String) : String :=
  add_user_filter cfg
    ("(|(" ++ cfg.uid_attr ++ "=" ++ escape_filter_chars username_or_email ++ suffix ++
      ")(" ++ cfg.email_attr ++ "=" ++ escape_filter_chars username_or_email ++ suffix ++ "))")

/-- The narrower identity-only filter built for the single referral
retry (line 263): `"(%s=%s)" % (self._uid_attr, username_or_email)`
— the term is interpolated as-is, then the user filter is conjoined. -/
def referral_subquery (cfg : LDAPConfig) (username_or_email : String) : String :=
  add_user_filter cfg ("(" ++ cfg.uid_attr ++ "=" ++ username_or_email ++ ")")

/-! ### Referral parsing -/

/-- Model of `_get_ldap_referral_dn`: parse the referral DN out of the
exception payload.  The payload is modelled as the optional `info`
string (`none` covers both a falsy `args[0]` dict and a missing
`info` key; an empty string is falsy as well). -/
def get_ldap_referral_dn (info : Option String) : Option String :=
  match info with
  | none => none
  | some referral_info =>
    if referral_info == "" then none
    else if !(referral_info.startsWith "Referral:\n") then none
    else
      let referral_uri := referral_info.drop ("Referral:\n".length)
      if !(referral_uri.startsWith "ldap:///") then none
      else some (referral_uri.drop ("ldap:///".length))

/-! ### Referral-aware user search -/

/-- A search-result pair `(dn, attrs)` as returned by `search_s`.
An empty `dn` models a falsy DN (such pairs are filtered out). -/
abbrev LDAPPair := String × AttrMap

/-- Outcome of the base-scope retry search on a referral DN
(line 265): either results or an `ldap.LDAPError`. -/
inductive RetryOutcome where
  | ok (pairs : List LDAPPair)
  | ldapError
deriving Repr

/-- Outcome of `conn.search_s` on one candidate base DN in
`_ldap_user_search_with_rdn`: results, an `ldap.REFERRAL` carrying
its `info` payload plus the behaviour the retry search would see, or
any other `ldap.LDAPError`. -/
inductive SearchOutcome where
  | ok (pairs : List LDAPPair)
  | referral (info : Option String) (retry : RetryOutcome)
  | ldapError
deriving Repr

/-- Abstracted directory/server behaviour plus the external
collaborators of the module: whether the admin bind succeeds, the
per-base-DN outcome of the user search, and the host-application
service/bot (robot) classifier, consumed as a pure predicate. -/
structure Directory where
  admin_valid : Bool
  search : String → SearchOutcome
  is_robot : String → Bool

/-- Model of `_ldap_user_search_with_rdn` for a single candidate base DN:
role-filter short-circuits, the subtree search, and the single
referral retry.  Returns the `(pairs, err_msg)` pair together with
the number of directory search round-trips performed. -/
def ldap_user_search_with_rdn (cfg : LDAPConfig) (outcome : SearchOutcome)
    (filter_superusers filter_restricted_users filter_global_readonly_superusers : Bool) :
    (Option (List LDAPPair) × Option String) × Nat :=
  if filter_restricted_users && !optStrTruthy cfg.ldap_restricted_user_filter then
    ((none, some "Username not found"), 0)
  else if !filter_restricted_users && filter_superusers &&
      !optStrTruthy cfg.ldap_superuser_filter then
    ((none, some "Superuser username not found"), 0)
  else if !filter_restricted_users && !filter_superusers &&
      filter_global_readonly_superusers &&
      !optStrTruthy cfg.ldap_global_readonly_superuser_filter then
    ((none, some "Global readonly superuser username not found"), 0)
  else
    match outcome with
    | .ok pairs => ((some pairs, none), 1)
    | .referral info retry =>
      match get_ldap_referral_dn info with
      | none => ((none, some "Failed to follow referral when looking up username"), 1)
      | some _ =>
        match retry with
        | .ok pairs => ((some pairs, none), 2)
        | .ldapError => ((none, some "Username not found"), 2)
    | .ldapError => ((none, some "Username not found"), 1)

/-- The `for user_search_dn in self._user_dns` loop of
`_ldap_user_search`: stop at the first candidate whose search
returns a non-`None`, non-empty result list; otherwise the last
`(pairs, err_msg)` of the last iteration stands.  Also accumulates the search
round-trip count. -/
def search_paths (cfg : LDAPConfig) (search : String → SearchOutcome)
    (fs fr fg : Bool) : List String → (Option (List LDAPPair) × Option String) × Nat
  | [] => ((none, none), 0)
  | dn :: rest =>
    let r := ldap_user_search_with_rdn cfg (search dn) fs fr fg
    match r.1.1 with
    | some (_ :: _) => r
    | _ =>
      if rest.isEmpty then r
      else
        let r2 := search_paths cfg search fs fr fg rest
        (r2.1, r.2 + r2.2)

/-- Model of `_ldap_user_search`: empty-term rejection, robot rejection,
standalone admin-bind verification, then the candidate-path loop,
truncation to `limit` and removal of pairs without a DN.  The `Nat`
component counts directory round-trips (binds plus searches). -/
def ldap_user_search (cfg : LDAPConfig) (dir : Directory)
    (username_or_email : String) (limit : Nat) (fs fr fg : Bool) :
    (Option (List LDAPPair) × Option String) × Nat :=
  if username_or_email == "" then ((none, some "Empty username/email"), 0)
  else if dir.is_robot username_or_email then
    ((none, some ("LDAP lookup for robots disabled " ++ username_or_email)), 0)
  else if !dir.admin_valid then
    ((none, some "LDAP Admin dn or password is invalid"), 1)
  else
    let r := search_paths cfg dir.search fs fr fg cfg.user_dns
    match r.1 with
    | (_, some e) => ((none, some e), 2 + r.2)
    | (some pairs, none) =>
      let results := pairs.take limit
      let with_dns := results.filter (fun p => !(p.1 == ""))
      ((some with_dns, none), 2 + r.2)
    | (none, none) => ((none, none), 2 + r.2)

/-- Model of `_ldap_single_user_search`: robot rejection, the plain search,
then single-result selection — prefer the first pair whose email
attribute is present, else the first pair. -/
def ldap_single_user_search (cfg : LDAPConfig) (dir : Directory)
    (username_or_email : String) (fs fr fg : Bool) :
    (Option LDAPPair × Option String) × Nat :=
  if dir.is_robot username_or_email then
    ((none, some ("LDAP lookup for robots disabled " ++ username_or_email)), 0)
  else
    let r := ldap_user_search cfg dir username_or_email 20 fs fr fg
    match r.1 with
    | (_, some e) => ((none, some e), r.2)
    | (some with_dns, none) =>
      match with_dns with
      | [] => ((none, some "Invalid username or password."), r.2)
      | [single] => ((some single, none), r.2)
      | first :: _ :: _ =>
        let with_mail := with_dns.filter (fun res => attrPresent res.2 cfg.email_attr)
        ((some (with_mail.headD first), none), r.2)
    | (none, none) => ((none, none), r.2)

/-! ### Identity resolver -/

/-- Model of `_build_user_information`: fail on a missing uid attribute, fail
on a missing email attribute when email is required, else take the
first value of each. -/
def build_user_information (cfg : LDAPConfig) (response : AttrMap) :
    Option UserInformation × Option String :=
  if !attrPresent response cfg.uid_attr then
    (none, some ("Missing uid field \"" ++ cfg.uid_attr ++ "\" in user record"))
  else if cfg.requires_email && !attrPresent response cfg.email_attr then
    (none, some ("Missing mail field \"" ++ cfg.email_attr ++ "\" in user record"))
  else
    let username :=
      match getAttr response cfg.uid_attr with
      | some (v :: _) => v
      | _ => ""
    let email :=
      match getAttr response cfg.email_attr with
      | some (v :: _) => some v
      | _ => none
    (some ⟨username, email, username⟩, none)

/-- Model of `get_user`: the single-user search followed by identity
resolution. -/
def get_user (cfg : LDAPConfig) (dir : Directory) (username_or_email : String) :
    Option UserInformation × Option String :=
  let r := ldap_single_user_search cfg dir username_or_email false false false
  match r.1 with
  | (_, some e) => (none, some e)
  | (some (_, found_response), none) => build_user_information cfg found_response
  | (none, none) => (none, none)

/-! ### Credential verification -/

/-- Outcome of binding as the own DN of the found user in
`verify_credentials`: success, `ldap.INVALID_CREDENTIALS`, or an
`ldap.REFERRAL` carrying its `info` payload together with whether
the one retry bind against the referral DN would be rejected. -/
inductive BindOutcome where
  | ok
  | invalidCredentials
  | referral (info : Option String) (retry_invalid : Bool)
deriving Repr

/-- Model of `verify_credentials`: reject an empty secret before anything
else, resolve the identity, bind as its DN (following at most one
referral) and, on success, resolve the identity record.  The `Nat`
component counts directory round-trips (binds plus searches); the
empty-secret branch performs none. -/
def verify_credentials (cfg : LDAPConfig) (dir : Directory) (bind_outcome : BindOutcome)
    (username_or_email password : String) :
    (Option UserInformation × Option String) × Nat :=
  if password == "" then ((none, some "Anonymous binding not allowed."), 0)
  else
    let r := ldap_single_user_search cfg dir username_or_email false false false
    match r.1 with
    | (none, err) => ((none, err), r.2)
    | (some (_, found_response), _) =>
      match bind_outcome with
      | .ok => (build_user_information cfg found_response, r.2 + 1)
      | .invalidCredentials => ((none, some "Invalid username or password."), r.2 + 1)
      | .referral info retry_invalid =>
        match get_ldap_referral_dn info with
        | none => ((none, some "Invalid username or password."), r.2 + 1)
        | some _ =>
          if retry_invalid then ((none, some "Invalid username or password."), r.2 + 2)
          else (build_user_information cfg found_response, r.2 + 2)

/-! ### Role classifier and existence checks -/

/-- Model of `is_restricted_user`: empty identifiers are not restricted; with
no restricted-user filter configured every remaining identifier is
restricted; only then are robots rejected and the filtered lookup
performed. -/
def is_restricted_user (cfg : LDAPConfig) (dir : Directory)
    (username_or_email : String) : Bool :=
  if username_or_email == "" then false
  else if cfg.ldap_restricted_user_filter.isNone then true
  else if dir.is_robot username_or_email then false
  else
    let r := ldap_single_user_search cfg dir username_or_email false true false
    r.1.1.isSome

/-- Outcome of the one existence search (`search_ext`/`result3` or
`search`/`result`) on a candidate base DN in
`at_least_one_user_exists`. -/
inductive ExistOutcome where
  | ok (rdata : List LDAPPair)
  | ldapError (msg : String)
deriving Repr

/-- Per-base-DN existence-search behaviour, indexed by the
role-filter flags (they change the composed filter, hence the result
set). -/
structure ExistDirectory where
  admin_valid : Bool
  exist_search : Bool → Bool → String → ExistOutcome

/-- The candidate-path loop of `at_least_one_user_exists`: the
filter-not-configured short-circuits run inside the loop body, then
a size-one search; any entry at all yields `(True, None)`. -/
def at_least_one_user_exists_go (cfg : LDAPConfig) (dir : ExistDirectory)
    (filter_superusers filter_restricted_users : Bool) :
    List String → Option Bool × Option String
  | [] => (some false, none)
  | dn :: rest =>
    if filter_restricted_users && !optStrTruthy cfg.ldap_restricted_user_filter then
      (some false, some "Superuser filter not set")
    else if !filter_restricted_users && filter_superusers &&
        !optStrTruthy cfg.ldap_superuser_filter then
      (some false, some "Restricted user filter not set")
    else
      match dir.exist_search filter_superusers filter_restricted_users dn with
      | .ok [] => at_least_one_user_exists_go cfg dir filter_superusers filter_restricted_users rest
      | .ok (_ :: _) => (some true, none)
      | .ldapError msg =>
        (some false, some (if msg == "" then "Could not find DN " ++ dn else msg))

/-- Model of `at_least_one_user_exists`: admin-bind verification, then the
candidate-path loop.  The first component models the Python value
`True` / `False` / `None`. -/
def at_least_one_user_exists (cfg : LDAPConfig) (dir : ExistDirectory)
    (filter_superusers filter_restricted_users : Bool) : Option Bool × Option String :=
  if !dir.admin_valid then (none, some "LDAP Admin dn or password is invalid")
  else at_least_one_user_exists_go cfg dir filter_superusers filter_restricted_users cfg.user_dns

/-- Python truthiness of the 2-tuple value returned by
`at_least_one_user_exists`: a non-empty tuple is truthy whatever it
contains. -/
def pyPairTruthy (_ : Option Bool × Option String) : Bool := true

/-- Model of `has_restricted_users`: the short-circuit condition tests
`self._ldap_restricted_user_filter is None and
self.at_least_one_user_exists()` — the value of that call is a 2-tuple,
evaluated for truthiness — else the first
component of the filtered existence check is returned. -/
def has_restricted_users (cfg : LDAPConfig) (dir : ExistDirectory) : Option Bool :=
  if cfg.ldap_restricted_user_filter.isNone &&
      pyPairTruthy (at_least_one_user_exists cfg dir false false) then
    some true
  else
    (at_least_one_user_exists cfg dir false true).1

/-! ### Paginated group enumerator -/

/-- One element of the `rdata` batch delivered by `result3`/`result`
in `_iterate_members`: either a direct entry whose second component
is an attribute map, or a referral-shaped entry whose second
component is itself a list (skipped, not followed). -/
inductive RData where
  | entry (dn : String) (attrs : AttrMap)
  | referralShaped (dn : String) (urls : List String)
deriving Repr, DecidableEq

/-- Whether an `rdata` element is a direct entry. -/
def RData.isEntry : RData → Bool
  | .entry _ _ => true
  | .referralShaped _ _ => false

/-- A server control attached to a search response; `is_paged` models
`control.controlType == SimplePagedResultsControl.controlType`. -/
structure Control where
  is_paged : Bool
  cookie : String
deriving Repr, DecidableEq

/-- Outcome of one `conn.result3`/`conn.result` call inside the
drain loop of `_iterate_members`: a batch with its server controls,
`ldap.NO_SUCH_OBJECT`, or any other `ldap.LDAPError`. -/
inductive FetchOutcome where
  | ok (rdata : List RData) (serverctrls : List Control)
  | noSuchObject
  | ldapError
deriving Repr

/-- An item yielded by the group-member generator: the
`(UserInformation | None, error | None)` pair produced by
`_build_user_information` for each direct entry. -/
abbrev YieldItem := Option UserInformation × Option String

/-- The `for userdata in rdata` body: referral-shaped entries are
skipped, every direct entry yields its resolution outcome, in batch
order. -/
def yield_rdata (cfg : LDAPConfig) (rdata : List RData) : List YieldItem :=
  rdata.filterMap (fun u =>
    match u with
    | .referralShaped _ _ => none
    | .entry _ attrs => some (build_user_information cfg attrs))

/-- The `while True` drain loop of `_iterate_members` for one
candidate base DN, consuming the successive server responses:
yield the batch; stop on a missing object, a protocol error
(already-yielded items stand), an empty batch, disabled pagination,
an absent paging control, or an empty continuation cookie; otherwise
reissue with the new cookie and continue on the next response. -/
def drain_path (cfg : LDAPConfig) (has_pagination : Bool) :
    List FetchOutcome → List YieldItem
  | [] => []
  | f :: rest =>
    match f with
    | .noSuchObject => []
    | .ldapError => []
    | .ok rdata ctrls =>
      let items := yield_rdata cfg rdata
      if rdata.isEmpty then items
      else if !has_pagination then items
      else
        match ctrls.filter (fun c => c.is_paged) with
        | [] => items
        | c :: _ =>
          if c.cookie == "" then items
          else items ++ drain_path cfg has_pagination rest

/-- Behaviour of one candidate base DN during group iteration:
either the initial `search`/`search_ext` call raises an
`ldap.LDAPError`, or the path responds with a sequence of fetch
outcomes for the successive `result3`/`result` calls. -/
inductive PathBehavior where
  | issueError
  | responds (fetches : List FetchOutcome)
deriving Repr

/-- The `for user_search_dn in self._user_dns` loop of
`_iterate_members`: an error when issuing the initial search breaks
out of the candidate-path loop itself, ending the whole generator;
a path that responds is drained and iteration proceeds with the next
path. -/
def iterate_members_paths (cfg : LDAPConfig) (has_pagination : Bool) :
    List PathBehavior → List YieldItem
  | [] => []
  | .issueError :: _ => []
  | .responds fetches :: rest =>
    drain_path cfg has_pagination fetches ++ iterate_members_paths cfg has_pagination rest

/-- Model of `_iterate_members`: pagination is active unless force-disabled in
configuration or by the caller; the per-path behaviour is given by
the server as a function of the base DN. -/
def iterate_members (cfg : LDAPConfig) (behave : String → PathBehavior)
    (disable_pagination : Bool) : List YieldItem :=
  let has_pagination := !(cfg.force_no_pagination || disable_pagination)
  iterate_members_paths cfg has_pagination (cfg.user_dns.map behave)

/-- Model of `iterate_group_members`: admin-bind verification, then the
generator (page size only parameterises the paging control and is
abstracted into the server behaviour). -/
def iterate_group_members (cfg : LDAPConfig) (admin_valid : Bool)
    (behave : String → PathBehavior) (disable_pagination : Bool) :
    Option (List YieldItem) × Option String :=
  if !admin_valid then (none, some "LDAP Admin dn or password is invalid")
  else (some (iterate_members cfg behave disable_pagination), none)

/-- Model of `check_group_lookup_args`: require a truthy `group_dn`, obtain
the iterator, then test `next(it, False)` — the first yielded item is
a Python 2-tuple, truthy whatever it contains, so any non-empty
iteration validates the group. -/
def check_group_lookup_args (cfg : LDAPConfig) (admin_valid : Bool)
    (behave : String → PathBehavior) (group_dn : Option String)
    (disable_pagination : Bool) : Bool × Option String :=
  if !optStrTruthy group_dn then (false, some "Missing group_dn")
  else
    match iterate_group_members cfg admin_valid behave disable_pagination with
    | (none, err) => (false, err)
    | (some items, _) =>
      match items with
      | [] => (false, some "Group does not exist or is empty")
      | _ :: _ => (true, none)

/-! ### Concrete endpoints and servers used in the theorems -/

/-- A baseline endpoint configuration: `uid`/`mail` attributes, one
candidate base DN, mandatory email, no role filters, pagination on. -/
def cfgBase : LDAPConfig :=
  { uid_attr := "uid"
    email_attr := "mail"
    requires_email := true
    user_dns := ["ou=users,dc=example,dc=com"]
    ldap_user_filter := none
    ldap_superuser_filter := none
    ldap_global_readonly_superuser_filter := none
    ldap_restricted_user_filter := none
    force_no_pagination := false }

/-- A directory with no entries whose robot classifier recognises
`quay+builder` as a service/bot identifier. -/
def dirC2 : Directory :=
  { admin_valid := true
    search := fun _ => .ok []
    is_robot := fun s => s == "quay+builder" }

/-- An existence-check directory with a valid admin bind and no
users under any base DN (every existence search returns no entries). -/
def dirC3 : ExistDirectory :=
  { admin_valid := true
    exist_search := fun _ _ _ => .ok [] }

/-! ### Claim theorems -/

/-- C1: the claim says every filter into which the lookup term is
interpolated — including the narrower identity-only filter used for
the single referral retry — escapes the term.  Evaluating the code at
the metacharacter-laden term `*)(uid=*` shows the referral retry
filter (line 263) interpolates the term raw: the composed filter is
`(uid=*)(uid=*)`, not the escaped form, while the main search filter
(line 231) does escape it. -/
theorem c1_referral_subquery_unescaped :
    referral_subquery cfgBase "*)(uid=*" = "(uid=*)(uid=*)" ∧
    "(" ++ cfgBase.uid_attr ++ "=" ++ escape_filter_chars "*)(uid=*" ++ ")"
      = "(uid=\\2a\\29\\28uid=\\2a)" ∧
    referral_subquery cfgBase "*)(uid=*"
      ≠ "(" ++ cfgBase.uid_attr ++ "=" ++ escape_filter_chars "*)(uid=*" ++ ")" ∧
    user_search_query cfgBase "*)(uid=*" ""
      = "(|(uid=\\2a\\29\\28uid=\\2a)(mail=\\2a\\29\\28uid=\\2a))" := by
  refine ⟨by decide, by decide, by decide, by decide⟩

/-- C2 (counterexample): with no restricted-user filter configured,
`is_restricted_user` on the service/bot identifier `quay+builder`
returns `true`, not `false` as the claim states — the no-filter
short-circuit precedes the service/bot check. -/
theorem c2_counterexample :
    dirC2.is_robot "quay+builder" = true ∧
    cfgBase.ldap_restricted_user_filter = none ∧
    is_restricted_user cfgBase dirC2 "quay+builder" = true := by
  refine ⟨by decide, rfl, by decide⟩

/-- C2 (amended): with no restricted-user filter configured,
`is_restricted_user` returns `true` for every non-empty identifier,
service/bot identifiers included; service/bot identifiers are
classified `false` only when a restricted-user filter is
configured. -/
theorem c2_no_filter_restricted (cfg : LDAPConfig) (dir : Directory)
    (u : String) (hu : u ≠ "") :
    (cfg.ldap_restricted_user_filter = none → is_restricted_user cfg dir u = true) ∧
    (∀ f, cfg.ldap_restricted_user_filter = some f → dir.is_robot u = true →
      is_restricted_user cfg dir u = false) := by
  constructor
  · intro hf
    simp [is_restricted_user, hu, hf]
  · intro f hf hr
    simp [is_restricted_user, hu, hf, hr]

/-- C2 (witness): the amended statement at the concrete identifier
`alice` against the no-filter endpoint. -/
theorem c2_no_filter_restricted_witness :
    is_restricted_user cfgBase dirC2 "alice" = true :=
  (c2_no_filter_restricted cfgBase dirC2 "alice" (by decide)).1 rfl

/-- C3: the claim says `has_restricted_users` with no restricted-user
filter returns `true` exactly when at least one user exists, and
`false` on an empty directory.  Evaluating the code on a directory
with no users: `at_least_one_user_exists` correctly reports
`(False, None)`, but the short-circuit condition tests the truthiness
of that 2-tuple — always truthy — so `has_restricted_users` returns
`True` anyway. -/
theorem c3_empty_directory_truthy_tuple :
    at_least_one_user_exists cfgBase dirC3 false false = (some false, none) ∧
    has_restricted_users cfgBase dirC3 = some true := by
  refine ⟨by decide, by decide⟩

/-- An endpoint with two candidate base DNs (a primary and a
historical secondary). -/
def cfgTwoPaths : LDAPConfig :=
  { cfgBase with user_dns := ["ou=primary,dc=x,dc=com", "ou=secondary,dc=x,dc=com"] }

/-- A direct group-member entry with uid and mail attributes. -/
def memberBob : RData :=
  .entry "uid=bob,ou=secondary,dc=x,dc=com" [("uid", ["bob"]), ("mail", ["bob@x.com"])]

/-- A server whose primary base DN raises a protocol error when the
initial group search is issued, while the secondary base DN holds one
group member. -/
def behaveC4 : String → PathBehavior := fun dn =>
  if dn == "ou=primary,dc=x,dc=com" then .issueError
  else .responds [.ok [memberBob] [⟨true, ""⟩]]

/-- Splitting a yielded batch: `yield_rdata` distributes over
append. -/
theorem yield_rdata_append (cfg : LDAPConfig) (a b : List RData) :
    yield_rdata cfg (a ++ b) = yield_rdata cfg a ++ yield_rdata cfg b := by
  simp [yield_rdata]

/-- When every element of a batch is a direct entry, the yielded
items are in bijection with the batch. -/
theorem yield_rdata_length (cfg : LDAPConfig) (rdata : List RData)
    (h : ∀ u ∈ rdata, u.isEntry = true) :
    (yield_rdata cfg rdata).length = rdata.length := by
  induction rdata with
  | nil => rfl
  | cons a l ih =>
    have ha := h a (List.mem_cons_self a l)
    have hl := fun u hu => h u (List.mem_cons_of_mem a hu)
    cases a with
    | entry dn attrs => simp [yield_rdata] at ih ⊢; exact ih hl
    | referralShaped dn urls => simp [RData.isEntry] at ha

/-- C4 (counterexample): the claim says a search-level protocol error
on the current base path moves enumeration on to the next candidate
path.  With the primary path raising on the initial search and the
secondary path holding a member, the full iteration yields nothing —
the issue-phase `break` exits the loop over candidate paths — even
though iterating the secondary path alone yields that member. -/
theorem c4_counterexample :
    iterate_members cfgTwoPaths behaveC4 false = [] ∧
    iterate_members { cfgTwoPaths with user_dns := ["ou=secondary,dc=x,dc=com"] }
        behaveC4 false
      = [(some ⟨"bob", some "bob@x.com", "bob"⟩, none)] := by
  refine ⟨by decide, by decide⟩

/-- C4 (amended): a protocol error while reading the results of an
in-progress search aborts only that base path — the items already
yielded from it (and from earlier paths) are preserved, and
enumeration continues with the next candidate path — whereas a
protocol error when issuing the initial search for a path ends the
whole iteration. -/
theorem c4_result_error_moves_on (cfg : LDAPConfig) (rdata : List RData)
    (hne : rdata ≠ []) (cookie : String) (hc : cookie ≠ "")
    (rest : List PathBehavior) :
    iterate_members_paths cfg true
        (.responds [.ok rdata [⟨true, cookie⟩], .ldapError] :: rest)
      = yield_rdata cfg rdata ++ iterate_members_paths cfg true rest ∧
    ∀ rp : List PathBehavior, iterate_members_paths cfg true (.issueError :: rp) = [] := by
  constructor
  · cases rdata with
    | nil => exact absurd rfl hne
    | cons a l =>
      simp [iterate_members_paths, drain_path, hc]
  · intro rp
    rfl

/-- C4 (witness): the amended statement at a one-member first batch
followed by a result-phase error, with one further candidate path
holding another member. -/
theorem c4_result_error_moves_on_witness :
    iterate_members_paths cfgTwoPaths true
        (.responds [.ok [memberBob] [⟨true, "cookie1"⟩], .ldapError]
          :: [.responds [.ok [memberBob] [⟨true, ""⟩]]])
      = yield_rdata cfgTwoPaths [memberBob]
        ++ iterate_members_paths cfgTwoPaths true [.responds [.ok [memberBob] [⟨true, ""⟩]]] :=
  (c4_result_error_moves_on cfgTwoPaths [memberBob] (by decide) "cookie1" (by decide)
    [.responds [.ok [memberBob] [⟨true, ""⟩]]]).1

/-- C5: with pagination enabled, when the response to the single
search carries either no paging control at all or a first paging
control with an empty continuation cookie, the drain loop for the
current base path stops after that one batch — the items of the batch are
yielded, and any further server responses are never fetched (the
conclusion is independent of `rest`). -/
theorem c5_single_batch (cfg : LDAPConfig) (rdata : List RData)
    (ctrls : List Control) (rest : List FetchOutcome)
    (h : ∀ c l, ctrls.filter (fun c => c.is_paged) = c :: l → c.cookie = "") :
    drain_path cfg true (.ok rdata ctrls :: rest) = yield_rdata cfg rdata := by
  cases rdata with
  | nil => simp [drain_path, yield_rdata]
  | cons a l =>
    simp only [drain_path]
    cases hf : ctrls.filter (fun c => c.is_paged) with
    | nil => simp
    | cons c cl =>
      have hck := h c cl hf
      simp [hck]

/-- C5 (witness): a server returning three members in the first
response with no paging control echoed back yields exactly those
three, never touching a pending second response. -/
theorem c5_single_batch_witness :
    drain_path cfgBase true
        (.ok [memberBob, memberBob, memberBob] []
          :: [.ok [memberBob] [⟨true, "more"⟩]])
      = yield_rdata cfgBase [memberBob, memberBob, memberBob] :=
  c5_single_batch cfgBase [memberBob, memberBob, memberBob] []
    [.ok [memberBob] [⟨true, "more"⟩]]
    (by intro c l hcl; simp at hcl)

/-- The fetch outcomes a properly paginating server produces for one
base path: each page arrives with a paging control whose cookie is
non-empty exactly when further pages remain. -/
def paged_responses : List (List RData) → List FetchOutcome
  | [] => []
  | [p] => [.ok p [⟨true, ""⟩]]
  | p :: q :: rest => .ok p [⟨true, "next-page"⟩] :: paged_responses (q :: rest)

/-- C6: over a paginating server, the drain loop yields one item per
direct entry across all pages, in server order within a page and
page-arrival order across pages; when every entry is a direct record
the yielded length equals the total entry count. -/
theorem c6_paginated_pages (cfg : LDAPConfig) (pages : List (List RData))
    (hne : ∀ p ∈ pages, p ≠ [])
    (hdir : ∀ p ∈ pages, ∀ u ∈ p, u.isEntry = true) :
    drain_path cfg true (paged_responses pages) = yield_rdata cfg pages.flatten ∧
    (drain_path cfg true (paged_responses pages)).length = pages.flatten.length := by
  have main : drain_path cfg true (paged_responses pages) = yield_rdata cfg pages.flatten := by
    induction pages with
    | nil => simp [paged_responses, drain_path, yield_rdata]
    | cons p rest ih =>
      have hp := hne p (List.mem_cons_self p rest)
      cases rest with
      | nil =>
        cases p with
        | nil => exact absurd rfl hp
        | cons a l => simp [paged_responses, drain_path]
      | cons q rest' =>
        have ihr := ih (fun x hx => hne x (List.mem_cons_of_mem p hx))
          (fun x hx => hdir x (List.mem_cons_of_mem p hx))
        cases p with
        | nil => exact absurd rfl hp
        | cons a l =>
          simp only [paged_responses, drain_path, List.flatten_cons]
          rw [yield_rdata_append]
          simp [ihr]
  refine ⟨main, ?_⟩
  rw [main]
  exact yield_rdata_length cfg pages.flatten (by
    intro u hu
    rw [List.mem_flatten] at hu
    obtain ⟨p, hp, hup⟩ := hu
    exact hdir p hp u hup)

/-- C6 (witness): the 3-page 2/2/1 scenario for page size 2 — five
members across the pages yield five records in arrival order. -/
theorem c6_paginated_pages_witness :
    drain_path cfgBase true
        (paged_responses [[memberBob, memberBob], [memberBob, memberBob], [memberBob]])
      = yield_rdata cfgBase
          ([[memberBob, memberBob], [memberBob, memberBob], [memberBob]].flatten) ∧
    (drain_path cfgBase true
        (paged_responses [[memberBob, memberBob], [memberBob, memberBob], [memberBob]])).length
      = 5 :=
  c6_paginated_pages cfgBase [[memberBob, memberBob], [memberBob, memberBob], [memberBob]]
    (by decide) (by decide)

/-- C7: `verify_credentials` with an empty secret fails with the
anonymous-bind-rejected error, returns no identity record, and
performs zero directory round-trips (the round-trip count is 0 and
the outcome is independent of the directory and bind behaviour). -/
theorem c7_empty_secret (cfg : LDAPConfig) (dir : Directory) (bo : BindOutcome)
    (u : String) :
    verify_credentials cfg dir bo u ""
      = ((none, some "Anonymous binding not allowed."), 0) := by
  rfl

/-- The secondary-path directory of the `getUser("alice")` scenario:
the primary base DN has no matching entries, the secondary base DN
holds `uid=alice, mail=alice@x.com`. -/
def alicePair : LDAPPair :=
  ("uid=alice,ou=secondary,dc=x,dc=com", [("uid", ["alice"]), ("mail", ["alice@x.com"])])

/-- The two-path directory serving the alice scenario. -/
def dirC8 : Directory :=
  { admin_valid := true
    search := fun dn =>
      if dn == "ou=secondary,dc=x,dc=com" then .ok [alicePair] else .ok []
    is_robot := fun _ => false }

/-- C8: the candidate-path loop stops at the first base DN whose
search returns at least one result — the conclusion is independent of
the remaining candidates — and on the two-path endpoint whose primary
path is empty and whose secondary path holds
`uid=alice, mail=alice@x.com`, `get_user "alice"` returns the
identity record `{username := alice, email := alice@x.com}`. -/
theorem c8_first_hit_scenario :
    (∀ (cfg : LDAPConfig) (search : String → SearchOutcome) (dn : String)
        (rest : List String) (p : LDAPPair) (ps : List LDAPPair),
        search dn = .ok (p :: ps) →
        search_paths cfg search false false false (dn :: rest)
          = ((some (p :: ps), none), 1)) ∧
    get_user cfgTwoPaths dirC8 "alice"
      = (some ⟨"alice", some "alice@x.com", "alice"⟩, none) := by
  constructor
  · intro cfg search dn rest p ps h
    simp [search_paths, ldap_user_search_with_rdn, h]
  · decide

/-- C8 (witness): the first-hit property at the secondary base DN of
the alice endpoint. -/
theorem c8_first_hit_scenario_witness :
    search_paths cfgTwoPaths dirC8.search false false false
        ["ou=secondary,dc=x,dc=com"]
      = ((some [alicePair], none), 1) :=
  c8_first_hit_scenario.1 cfgTwoPaths dirC8.search "ou=secondary,dc=x,dc=com" []
    alicePair [] rfl

/-- C9: a referral whose `info` payload is missing, does not start
with the `Referral:\n` header, or whose target does not use the
`ldap:///` scheme resolves to the not-found outcome — the
`(None, error-message)` pair — for the user search on that base DN;
totality of the embedded function reflects that no exception escapes
to the caller. -/
theorem c9_bad_referral (cfg : LDAPConfig) (retry : RetryOutcome) (info : Option String)
    (h : info = none ∨ ∃ s, info = some s ∧
        (s.startsWith "Referral:\n" = false ∨
          (s.drop ("Referral:\n".length)).startsWith "ldap:///" = false)) :
    ldap_user_search_with_rdn cfg (.referral info retry) false false false
      = ((none, some "Failed to follow referral when looking up username"), 1) := by
  have hdn : get_ldap_referral_dn info = none := by
    rcases h with h | ⟨s, hs, h⟩
    · rw [h]; rfl
    · rw [hs]
      by_cases hse : s = ""
      · simp [get_ldap_referral_dn, hse]
      · rcases h with h | h
        · simp [get_ldap_referral_dn, hse, h]
        · by_cases hh : s.startsWith "Referral:\n"
          · simp [get_ldap_referral_dn, hse, hh, h]
          · simp [get_ldap_referral_dn, hse, hh]
  simp [ldap_user_search_with_rdn, hdn]

/-- C9 (witness): a referral payload with a bogus info block resolves
to the not-found pair. -/
theorem c9_bad_referral_witness :
    ldap_user_search_with_rdn cfgBase (.referral (some "bogus") (.ok [])) false false false
      = ((none, some "Failed to follow referral when looking up username"), 1) :=
  c9_bad_referral cfgBase (.ok []) (some "bogus")
    (Or.inr ⟨"bogus", rfl, Or.inl (by decide)⟩)

/-- A group server whose single member record lacks the mandatory
email attribute. -/
def behaveC10 : String → PathBehavior := fun _ =>
  .responds [.ok [.entry "uid=bob,ou=users,dc=example,dc=com" [("uid", ["bob"])]] []]

/-- C10: `check_group_lookup_args` validates the group as soon as the
member iterator yields any first item — every yielded pair, a Python
2-tuple, is truthy, so even a resolution-failure pair
`(None, error)` counts. -/
theorem c10_any_yield_validates (cfg : LDAPConfig) (behave : String → PathBehavior)
    (gdn : String) (hg : gdn ≠ "") (dis : Bool)
    (item : YieldItem) (rest : List YieldItem)
    (hit : iterate_members cfg behave dis = item :: rest) :
    check_group_lookup_args cfg true behave (some gdn) dis = (true, none) := by
  simp [check_group_lookup_args, iterate_group_members, optStrTruthy, hg, hit]

/-- C10 (witness): a group whose only member record is missing the
mandatory email attribute yields exactly one resolution-failure pair,
and the group still validates as existing and non-empty. -/
theorem c10_any_yield_validates_witness :
    iterate_members cfgBase behaveC10 false
      = [(none, some "Missing mail field \"mail\" in user record")] ∧
    check_group_lookup_args cfgBase true behaveC10 (some "cn=devs,ou=groups,dc=example,dc=com") false
      = (true, none) :=
  ⟨by decide,
    c10_any_yield_validates cfgBase behaveC10 "cn=devs,ou=groups,dc=example,dc=com"
      (by decide) false (none, some "Missing mail field \"mail\" in user record") []
      (by decide)⟩

end ExternalLdap
